import Mathlib

set_option maxRecDepth 100000

/-!
Verification of the adaptive trigger-scheduling and clock-drift-correction core
of the minions-mcu camera firmware (src/camera/src/m_camera.cpp).

The development has three layers:

1. An exact model of IEEE-754 binary64 (double) arithmetic over `ℚ`:
   every C++ double operation in the drift computation is modelled as the exact
   rational operation followed by `roundD`, rounding to the nearest representable
   binary64 value (round-to-nearest, ties-to-even).  The model is valid for
   magnitudes in `[2^(-200), 2^200)`, which covers every value arising in the
   program (all are between 10^(-9) and 10^19); overflow and subnormals cannot
   occur and are not modelled.

2. The drift-period computation of m_camera.cpp lines 318-319, translated
   operation by operation: C++ integer division truncates toward zero
   (`Int.tdiv`), the `(long long)` cast of a double truncates toward zero
   (`truncQ`), and each double operation rounds (`roundD`).

3. The scheduler state machine of `main` (startup, Sync handling, Drift
   handling, Trigger firing), with the timer-arming calls recorded in an
   action trace.  `synchronize`, `get_skew`, `Peripheral::init` and the
   timespec conversions live in headers that are not part of the repository
   snapshot; they are modelled from the spec where marked.
-/

/-! ### Exact binary64 rounding model over ℚ -/

/-- Floor of a rational as an integer.  The denominator of a `Rat` is positive,
so Euclidean division of the numerator by it is the floor. -/
def qfloor (q : ℚ) : ℤ := Int.ediv q.num q.den

/-- Absolute value, written with primitives that the kernel evaluates. -/
def qabs (q : ℚ) : ℚ := if q < 0 then -q else q

/-- Round a rational to the nearest integer, ties to even, as in IEEE-754
round-to-nearest mantissa rounding. -/
def rne (x : ℚ) : ℤ :=
  if x - (qfloor x : ℚ) < 1/2 then qfloor x
  else if 1/2 < x - (qfloor x : ℚ) then qfloor x + 1
  else if Int.tmod (qfloor x) 2 = 0 then qfloor x else qfloor x + 1

/-- 2^52, the binary64 mantissa scale. -/
def TWO52 : ℚ := ((2 ^ 52 : ℕ) : ℚ)

/-- 2^200, bounding the exponent range of the model. -/
def TWO200 : ℚ := ((2 ^ 200 : ℕ) : ℚ)

/-- Leading-bit search: starting from a power of two `p`, repeatedly double `p`
while `2 * p ≤ a`, returning the exponent count and the final power.  With the
invariant `p ≤ a` it ends with `p ≤ a < 2 * p`. -/
def floorLog2Aux : ℕ → ℚ → ℤ → ℚ → ℤ × ℚ
  | 0, _, e, p => (e, p)
  | f + 1, a, e, p => if 2 * p ≤ a then floorLog2Aux f a (e + 1) (2 * p) else (e, p)

/-- For `a` in `[2^(-200), 2^200)` returns `(e, 2^e)` with `2^e ≤ a < 2^(e+1)`. -/
def floorLog2P (a : ℚ) : ℤ × ℚ := floorLog2Aux 400 a (-200) TWO200⁻¹

/-- Round a rational to the nearest IEEE-754 binary64 value
(round-to-nearest, ties-to-even), for magnitudes in `[2^(-200), 2^200)`:
scale the magnitude into the mantissa window `[2^52, 2^53)`, round the mantissa
to an integer, and scale back. -/
def roundD (q : ℚ) : ℚ :=
  if q = 0 then 0
  else
    let a := qabs q
    let p := (floorLog2P a).2
    let v : ℚ := (rne (a * TWO52 / p) : ℚ) * p / TWO52
    if q < 0 then -v else v

/-- The C cast of a double to `long long`: truncation toward zero. -/
def truncQ (x : ℚ) : ℤ := if x < 0 then -qfloor (-x) else qfloor x

/-- Conversion of a 64-bit integer to double: exact below 2^53, otherwise
rounded to the nearest representable value. -/
def dblOfInt (n : ℤ) : ℚ := roundD (n : ℚ)

/-! ### Program constants (m_camera.cpp) -/

/-- Modelled from the spec: `BILLION` is defined in the missing header
`synchronization.h`; the spec fixes one nominal remote second as
1_000_000_000 ns (`server_second_ns` nominal value). -/
def BILLION : ℤ := 1000000000

/-- `#define PERIOD 1` (m_camera.cpp line 59). -/
def PERIOD : ℤ := 1

/-- `#define OFFSET 2` (m_camera.cpp line 62). -/
def OFFSET : ℤ := 2

/-- `drift_period = 61` (m_camera.cpp line 183). -/
def drift_period : ℤ := 61

/-- `sync_period = 301` (m_camera.cpp line 183). -/
def sync_period : ℤ := 301

/-! ### The drift-period computation (m_camera.cpp lines 318-319) -/

/-- Line 318:
`double server_period = double((T_skew_now - T_skew_prev)/drift_period + BILLION);`
The inner expression is 64-bit integer arithmetic (division truncates toward
zero); the resulting integer is then converted to double. -/
def server_period (T_skew_now T_skew_prev : ℤ) : ℚ :=
  dblOfInt (Int.tdiv (T_skew_now - T_skew_prev) drift_period + BILLION)

/-- Line 319:
`server_sec = (long long) (double(BILLION)*(double(BILLION) / server_period));`
Each double operation rounds to nearest; the final cast truncates toward 0. -/
def server_sec_of_skews (T_skew_now T_skew_prev : ℤ) : ℤ :=
  truncQ (roundD (dblOfInt BILLION *
    roundD (dblOfInt BILLION / server_period T_skew_now T_skew_prev)))

/-- Round to the nearest integer (half away from zero for positive arguments);
used only to state the period formula the way the spec words it.  No value
compared below ever lands exactly on a half. -/
def specRound (x : ℚ) : ℤ := qfloor (x + 1/2)

/-- The period update exactly as the spec words it:
`server_second_ns = round( 1e18 / ( (skew_now_ns - skew_prev_ns)/drift_period + 1e9 ) )`
with the quotient taken as a real (not integer-truncated) quotient and the
result rounded to the nearest integer.  Stated for comparison against the
computation the code performs. -/
def specServerSecond (d : ℤ) : ℤ :=
  specRound ((1000000000000000000 : ℚ) / ((d : ℚ) / ((drift_period : ℤ) : ℚ) + 1000000000))

/-! ### Time conversion and timer arming -/

/-- Modelled from the spec: `struct timeinfo` is declared in the missing header
`synchronization.h`; its two fields are the skew sample and the remote-aligned
start instant returned by a full synchronization (spec section 3,
RemoteClockInfo), matching the uses `TI.T_skew_n` and `TI.T_start_n` in
m_camera.cpp. -/
structure timeinfo where
  T_skew_n : ℤ
  T_start_n : ℤ
  deriving DecidableEq

/-- Modelled from the spec: `as_timespec` from the missing header converts an
absolute nanosecond count to the split seconds/nanoseconds representation;
the conversion is exact, with the nanosecond component in `[0, BILLION)`
(spec section 4.1). -/
def as_timespec (ns : ℤ) : ℤ × ℤ := (Int.ediv ns BILLION, Int.emod ns BILLION)

/-- Modelled from the spec: inverse of `as_timespec` (spec section 4.1). -/
def as_nsec (t : ℤ × ℤ) : ℤ := t.1 * BILLION + t.2

/-- An armed timer: absolute first-expiration time and repeat interval, both in
nanoseconds (`it_value` and `it_interval` of the `itimerspec` passed to
`timer_settime`). -/
structure TimerState where
  value_ns : ℤ
  interval_ns : ℤ
  deriving DecidableEq

/-- `makeTimer` (m_camera.cpp lines 131-168): arms a timer at absolute time
`*T_start` with interval `{it_sec, it_nsec}`. -/
def makeTimer (T_start : ℤ × ℤ) (it_sec it_nsec : ℤ) : TimerState :=
  { value_ns := as_nsec T_start, interval_ns := it_sec * BILLION + it_nsec }

/-- `resetTimer` (m_camera.cpp lines 170-178): re-arms a timer at absolute time
`*T_start`; the interval `t_nsec` is split with C++ truncating division and
remainder into seconds and nanoseconds. -/
def resetTimer (T_start : ℤ × ℤ) (t_nsec : ℤ) : TimerState :=
  { value_ns := as_nsec T_start,
    interval_ns := Int.tdiv t_nsec BILLION * BILLION + Int.tmod t_nsec BILLION }

/-! ### Scheduler state machine (main, m_camera.cpp lines 180-345) -/

/-- The three timer identities owned by the scheduler. -/
inductive TimerName
  | camera
  | drift
  | sync
  deriving DecidableEq

/-- Externally visible actions of the scheduler, in program order: opening the
log file in `setup`, arming a timer (`makeTimer` or `resetTimer`), calling
`exit` with a status code, and firing the physical trigger. -/
inductive TraceAction
  | logOpened
  | armed (t : TimerName) (value_ns interval_ns : ℤ)
  | exited (code : ℤ)
  | triggered
  deriving DecidableEq

/-- Discriminator for timer-arming actions. -/
def isArm : TraceAction → Bool
  | TraceAction.armed _ _ _ => true
  | _ => false

/-- Discriminator for arming of the Drift timer. -/
def isArmDrift : TraceAction → Bool
  | TraceAction.armed TimerName.drift _ _ => true
  | _ => false

/-- Discriminator for arming of the Sync timer. -/
def isArmSync : TraceAction → Bool
  | TraceAction.armed TimerName.sync _ _ => true
  | _ => false

/-- Scheduler state: the globals `count`, `T_skew_prev`, `T_skew_now`, the
locals of `main` (`server_sec`, `T_trig_n`, `T_sync_n`, `T_drift_n`) and the
three armed timers. -/
structure SchedState where
  server_sec : ℤ
  T_trig_n : ℤ
  T_sync_n : ℤ
  T_drift_n : ℤ
  T_skew_prev : ℤ
  T_skew_now : ℤ
  count : ℤ
  cameraTimer : TimerState
  driftTimer : TimerState
  syncTimer : TimerState
  deriving DecidableEq

/-- `setup` (m_camera.cpp lines 117-128): when `peripheral->init()` fails the
function prints an error and returns without opening the log; when it succeeds
the log file is opened.  In both cases control returns to `main`. -/
def setup (periphOk : Bool) : List TraceAction :=
  if periphOk then [TraceAction.logOpened] else []

/-- The scheduler state at the end of a successful startup
(m_camera.cpp lines 202-226), given the `timeinfo` returned by the initial
`synchronize`: Trigger armed at `T_start_n` with interval `{PERIOD, 0}`,
Drift and Sync armed one-shot at `T_start_n + k*server_sec + server_sec/OFFSET`
for `k = drift_period, sync_period`, with `server_sec = BILLION`;
afterwards `T_sync_n` is reassigned to `T_trig_n` (line 225).
The globals `count`, `T_skew_prev` are zero-initialized. -/
def initState (TI : timeinfo) : SchedState :=
  let server_sec : ℤ := BILLION
  let T_trig_n := TI.T_start_n
  let T_drift_n := T_trig_n + drift_period * server_sec + Int.tdiv server_sec OFFSET
  let T_sync_arm := T_trig_n + sync_period * server_sec + Int.tdiv server_sec OFFSET
  { server_sec := server_sec
    T_trig_n := T_trig_n
    T_sync_n := T_trig_n
    T_drift_n := T_drift_n
    T_skew_prev := 0
    T_skew_now := TI.T_skew_n
    count := 0
    cameraTimer := makeTimer (as_timespec T_trig_n) PERIOD 0
    driftTimer := makeTimer (as_timespec T_drift_n) 0 0
    syncTimer := makeTimer (as_timespec T_sync_arm) 0 0 }

/-- `main` up to the cooperative loop (m_camera.cpp lines 189-227):
`setup`, then the initial full synchronization — `exit(1)` on failure, before
any timer is armed — then the three `makeTimer` calls.  The input carries the
outcome of `peripheral->init()` and the result of `synchronize` (`none` for a
`-1` return). -/
def mainInit (periphOk : Bool) (syncRes : Option timeinfo) :
    List TraceAction × Option SchedState :=
  match syncRes with
  | none => (setup periphOk ++ [TraceAction.exited 1], none)
  | some TI =>
      let s := initState TI
      (setup periphOk ++
        [TraceAction.armed TimerName.camera s.cameraTimer.value_ns s.cameraTimer.interval_ns,
         TraceAction.armed TimerName.drift s.driftTimer.value_ns s.driftTimer.interval_ns,
         TraceAction.armed TimerName.sync s.syncTimer.value_ns s.syncTimer.interval_ns],
       some s)

/-- `triggerCamera` (m_camera.cpp lines 100-114): fires the trigger, logs, and
increments `count`; no other scheduler state is touched. -/
def triggerCamera (s : SchedState) : List TraceAction × SchedState :=
  ([TraceAction.triggered], { s with count := s.count + 1 })

/-- The successful Drift handling cycle (m_camera.cpp lines 291-336) given the
fresh skew sample `sk` written by `get_skew`:
save `T_skew_prev`, record `T_skew_now`, recompute `server_sec` from the skew
delta, advance `T_trig_n` by `(drift_period+1)*server_sec`, zero `count`,
re-arm the Trigger timer at `T_trig_n` with interval `server_sec*PERIOD`,
advance `T_sync_n` by `sync_period*server_sec + server_sec/OFFSET` and re-arm
the Sync timer there one-shot.  The Drift timer is not re-armed (the re-arm
code at lines 326-328 is commented out). -/
def driftStep (s : SchedState) (sk : ℤ) : SchedState :=
  let T_skew_prev := s.T_skew_now
  let T_skew_now := sk
  let server_sec := server_sec_of_skews T_skew_now T_skew_prev
  let T_trig_n := s.T_trig_n + (drift_period + 1) * server_sec
  let T_sync_n := s.T_sync_n + sync_period * server_sec + Int.tdiv server_sec OFFSET
  { s with
    T_skew_prev := T_skew_prev
    T_skew_now := T_skew_now
    server_sec := server_sec
    T_trig_n := T_trig_n
    count := 0
    cameraTimer := resetTimer (as_timespec T_trig_n) (server_sec * PERIOD)
    T_sync_n := T_sync_n
    syncTimer := resetTimer (as_timespec T_sync_n) 0 }

/-- Drift handling (the `fDrift` branch): `get_skew` failure is fatal
(`exit(1)`, lines 299-303); on success the cycle runs `driftStep` and re-arms
the Trigger and Sync timers, in that order. -/
def handleDrift (s : SchedState) (r : Option ℤ) : List TraceAction × Option SchedState :=
  match r with
  | none => ([TraceAction.exited 1], none)
  | some sk =>
      let t := driftStep s sk
      ([TraceAction.armed TimerName.camera t.cameraTimer.value_ns t.cameraTimer.interval_ns,
        TraceAction.armed TimerName.sync t.syncTimer.value_ns t.syncTimer.interval_ns],
       some t)

/-- The successful Sync handling cycle (m_camera.cpp lines 242-288) given the
`timeinfo` returned by the full synchronization: re-arm the Trigger timer at
the returned `T_start_n` with interval `server_sec*PERIOD` (the current
`server_sec`, unchanged by this cycle), set `T_trig_n`, zero `count`, re-arm
the Drift timer one-shot at
`T_start_n + drift_period*server_sec + server_sec/OFFSET`, reset the sync
anchor `T_sync_n` to `T_start_n`, and record the returned skew.
The Sync timer itself is not re-armed here. -/
def syncStep (s : SchedState) (TI : timeinfo) : SchedState :=
  let T_trig_n := TI.T_start_n
  let T_drift_n := TI.T_start_n + drift_period * s.server_sec + Int.tdiv s.server_sec OFFSET
  { s with
    T_trig_n := T_trig_n
    count := 0
    T_drift_n := T_drift_n
    T_sync_n := TI.T_start_n
    T_skew_now := TI.T_skew_n
    cameraTimer := resetTimer (as_timespec T_trig_n) (s.server_sec * PERIOD)
    driftTimer := resetTimer (as_timespec T_drift_n) 0 }

/-- Sync handling (the `fSync` branch): `synchronize` failure is fatal
(`exit(1)`, lines 261-265); on success the cycle runs `syncStep` and re-arms
the Trigger and Drift timers, in that order. -/
def handleSync (s : SchedState) (r : Option timeinfo) : List TraceAction × Option SchedState :=
  match r with
  | none => ([TraceAction.exited 1], none)
  | some TI =>
      let t := syncStep s TI
      ([TraceAction.armed TimerName.camera t.cameraTimer.value_ns t.cameraTimer.interval_ns,
        TraceAction.armed TimerName.drift t.driftTimer.value_ns t.driftTimer.interval_ns],
       some t)

/-- A concrete scheduler state whose period estimate is away from nominal
(as after a drift correction); used to instantiate claims at explicit inputs. -/
def stateC : SchedState :=
  { server_sec := 999999000
    T_trig_n := 5000000000
    T_sync_n := 5000000000
    T_drift_n := 66499384500
    T_skew_prev := 0
    T_skew_now := 7000
    count := 3
    cameraTimer := { value_ns := 5000000000, interval_ns := 999999000 }
    driftTimer := { value_ns := 66499384500, interval_ns := 0 }
    syncTimer := { value_ns := 306499692500, interval_ns := 0 } }

/-! ### Properties of the rounding model -/

theorem qfloor_eq_floor (q : ℚ) : qfloor q = ⌊q⌋ := by
  rw [qfloor, Rat.floor_def]
  rfl

theorem qfloor_le (q : ℚ) : (qfloor q : ℚ) ≤ q := by
  rw [qfloor_eq_floor]
  exact Int.floor_le q

theorem lt_qfloor_add_one (q : ℚ) : q < (qfloor q : ℚ) + 1 := by
  rw [qfloor_eq_floor]
  exact_mod_cast Int.lt_floor_add_one q

theorem rne_bounds (x : ℚ) : x - 1/2 ≤ (rne x : ℚ) ∧ (rne x : ℚ) ≤ x + 1/2 := by
  have h1 := qfloor_le x
  have h2 := lt_qfloor_add_one x
  rw [rne]
  split_ifs with ha hb hc
  · exact ⟨by linarith, by linarith⟩
  · push_cast
    exact ⟨by linarith, by linarith⟩
  · exact ⟨by linarith, by linarith⟩
  · push_cast
    exact ⟨by linarith, by linarith⟩

theorem floorLog2Aux_bounds :
    ∀ (f : ℕ) (a : ℚ) (e : ℤ) (p : ℚ), 0 < p → p ≤ a → a < p * 2 ^ f →
      0 < (floorLog2Aux f a e p).2 ∧ (floorLog2Aux f a e p).2 ≤ a ∧
        a < 2 * (floorLog2Aux f a e p).2
  | 0, a, _, p, _, hpa, hlt => by
      rw [pow_zero, mul_one] at hlt
      exact absurd hlt (not_lt.mpr hpa)
  | f + 1, a, e, p, hp, hpa, hlt => by
      rw [floorLog2Aux]
      split_ifs with h
      · refine floorLog2Aux_bounds f a (e + 1) (2 * p) (by linarith) h ?_
        have hrw : p * 2 ^ (f + 1) = 2 * p * 2 ^ f := by
          rw [pow_succ]
          ring
        rw [hrw] at hlt
        exact hlt
      · exact ⟨hp, hpa, by linarith [not_le.mp h]⟩

theorem floorLog2P_bounds (a : ℚ) (h1 : TWO200⁻¹ ≤ a) (h2 : a < TWO200) :
    0 < (floorLog2P a).2 ∧ (floorLog2P a).2 ≤ a ∧ a < 2 * (floorLog2P a).2 := by
  have h200 : (0 : ℚ) < TWO200 := by norm_num [TWO200]
  have hinv : (0 : ℚ) < TWO200⁻¹ := inv_pos.mpr h200
  refine floorLog2Aux_bounds 400 a (-200) TWO200⁻¹ hinv h1 ?_
  have hpow : TWO200⁻¹ * 2 ^ (400 : ℕ) = TWO200 := by
    rw [TWO200]
    push_cast
    rw [show (400 : ℕ) = 200 + 200 from rfl, pow_add]
    norm_num
  rw [hpow]
  exact h2

theorem roundD_eq_of_pos (q : ℚ) (hq0 : 0 < q) :
    roundD q =
      (rne (q * TWO52 / (floorLog2P q).2) : ℚ) * (floorLog2P q).2 / TWO52 := by
  have hqabs : qabs q = q := if_neg (not_lt.mpr hq0.le)
  simp only [roundD, hqabs, if_neg (ne_of_gt hq0), if_neg (not_lt.mpr hq0.le)]

theorem roundD_bounds (q : ℚ) (h1 : TWO200⁻¹ ≤ q) (h2 : q < TWO200) :
    q - q / TWO52 ≤ roundD q ∧ roundD q ≤ q + q / TWO52 := by
  have h52 : (0 : ℚ) < TWO52 := by norm_num [TWO52]
  have h200 : (0 : ℚ) < TWO200 := by norm_num [TWO200]
  have hq0 : 0 < q := lt_of_lt_of_le (inv_pos.mpr h200) h1
  obtain ⟨hp, hpa, h2p⟩ := floorLog2P_bounds q h1 h2
  set p := (floorLog2P q).2 with hpdef
  set m := rne (q * TWO52 / p) with hmdef
  obtain ⟨hm1, hm2⟩ := rne_bounds (q * TWO52 / p)
  rw [roundD_eq_of_pos q hq0, ← hpdef, ← hmdef]
  have hcancel : q * TWO52 / p * p = q * TWO52 :=
    div_mul_cancel₀ (q * TWO52) (ne_of_gt hp)
  have hkey1 : q * TWO52 - p / 2 ≤ (m : ℚ) * p := by
    have := mul_le_mul_of_nonneg_right hm1 hp.le
    rw [sub_mul, hcancel] at this
    linarith
  have hkey2 : (m : ℚ) * p ≤ q * TWO52 + p / 2 := by
    have := mul_le_mul_of_nonneg_right hm2 hp.le
    rw [add_mul, hcancel] at this
    linarith
  have e2 : q / TWO52 * TWO52 = q := div_mul_cancel₀ q (ne_of_gt h52)
  have hpq : p / 2 ≤ q := by linarith
  constructor
  · refine (le_div_iff₀ h52).mpr ?_
    rw [sub_mul, e2]
    linarith
  · refine (div_le_iff₀ h52).mpr ?_
    rw [add_mul, e2]
    linarith

theorem roundD_pos (q : ℚ) (h1 : TWO200⁻¹ ≤ q) (h2 : q < TWO200) :
    0 < roundD q := by
  have h52 : (1 : ℚ) < TWO52 := by norm_num [TWO52]
  have hq0 : 0 < q := lt_of_lt_of_le (inv_pos.mpr (by norm_num [TWO200])) h1
  have hlt : q / TWO52 < q := div_lt_self hq0 h52
  have := (roundD_bounds q h1 h2).1
  linarith

theorem roundD_half_bounds (q : ℚ) (h1 : TWO200⁻¹ ≤ q) (h2 : q < TWO200) :
    q / 2 ≤ roundD q ∧ roundD q ≤ 2 * q := by
  have hq0 : 0 < q := lt_of_lt_of_le (inv_pos.mpr (by norm_num [TWO200])) h1
  have hhalf : q / TWO52 ≤ q / 2 :=
    div_le_div_of_nonneg_left hq0.le (by norm_num) (by norm_num [TWO52])
  obtain ⟨hlo, hhi⟩ := roundD_bounds q h1 h2
  exact ⟨by linarith, by linarith⟩

/-! ### Timer and conversion utilities -/

theorem as_nsec_timespec (n : ℤ) : as_nsec (as_timespec n) = n := by
  simp only [as_nsec, as_timespec, BILLION]
  show n / 1000000000 * 1000000000 + n % 1000000000 = n
  omega

theorem resetTimer_spec (T : ℤ × ℤ) (t : ℤ) :
    resetTimer T t = { value_ns := as_nsec T, interval_ns := t } := by
  have h := Int.tdiv_add_tmod' t BILLION
  simp only [resetTimer, h]

theorem resetTimer_abs (n t : ℤ) :
    resetTimer (as_timespec n) t = { value_ns := n, interval_ns := t } := by
  rw [resetTimer_spec, as_nsec_timespec]

theorem makeTimer_abs (n s ns : ℤ) :
    makeTimer (as_timespec n) s ns =
      { value_ns := n, interval_ns := s * BILLION + ns } := by
  simp only [makeTimer, as_nsec_timespec]

/-! ### Positivity of the drift-corrected period -/

theorem tdiv61_eq (d : ℤ) :
    Int.tdiv d 61 = if 0 ≤ d then d / 61 else -((-d) / 61) := by
  rcases le_or_lt 0 d with hd | hd
  · rw [if_pos hd, Int.tdiv_eq_ediv hd (by norm_num)]
  · rw [if_neg (not_le.mpr hd)]
    conv_lhs => rw [show d = -(-d) from (neg_neg d).symm]
    rw [Int.neg_tdiv, Int.tdiv_eq_ediv (by linarith) (by norm_num)]

theorem sp_bounds {d : ℤ} (hlo : -61000000000 < d)
    (hhi : d < 9223372036854775808) :
    1 ≤ Int.tdiv d 61 + BILLION ∧
      Int.tdiv d 61 + BILLION ≤ 151202821276307800 := by
  rw [tdiv61_eq, BILLION]
  split_ifs with h
  · omega
  · omega

theorem server_sec_core_pos (sp : ℤ) (h1 : 1 ≤ sp)
    (h2 : sp ≤ 151202821276307800) :
    0 < truncQ (roundD ((1000000000 : ℚ) *
      roundD ((1000000000 : ℚ) / dblOfInt sp))) := by
  unfold dblOfInt
  have hsq : (1 : ℚ) ≤ (sp : ℚ) := by exact_mod_cast h1
  have hsK : (sp : ℚ) ≤ 151202821276307800 := by exact_mod_cast h2
  have r1lo : TWO200⁻¹ ≤ (sp : ℚ) := le_trans (by norm_num [TWO200]) hsq
  have r1hi : (sp : ℚ) < TWO200 := lt_of_le_of_lt hsK (by norm_num [TWO200])
  obtain ⟨h1lo, h1hi⟩ := roundD_half_bounds (sp : ℚ) r1lo r1hi
  set A := roundD ((sp : ℚ)) with hA
  have hA0 : (1 : ℚ)/2 ≤ A := by linarith
  have hApos : (0 : ℚ) < A := by linarith
  have hAhi : A ≤ 302405642552615600 := by linarith
  set x := (1000000000 : ℚ) / A with hx
  have hx_lo : (3 : ℚ)/1000000000 ≤ x := by
    have ha : (1000000000 : ℚ) / 302405642552615600 ≤ x :=
      div_le_div_of_nonneg_left (by norm_num) hApos hAhi
    have hb : (3 : ℚ)/1000000000 ≤ (1000000000 : ℚ) / 302405642552615600 := by
      norm_num
    linarith
  have hx_hi : x ≤ 2000000000 := by
    have ha : x ≤ (1000000000 : ℚ) / (1/2) :=
      div_le_div_of_nonneg_left (by norm_num) (by norm_num) hA0
    have hb : (1000000000 : ℚ) / (1/2) = 2000000000 := by norm_num
    linarith
  have r2lo : TWO200⁻¹ ≤ x := le_trans (by norm_num [TWO200]) hx_lo
  have r2hi : x < TWO200 := lt_of_le_of_lt hx_hi (by norm_num [TWO200])
  obtain ⟨h2lo, h2hi⟩ := roundD_half_bounds x r2lo r2hi
  set B := roundD x with hB
  have hB_lo : (3 : ℚ)/2000000000 ≤ B := by linarith
  have hB_hi : B ≤ 4000000000 := by linarith
  set y := (1000000000 : ℚ) * B with hy
  have hy_lo : (3 : ℚ)/2 ≤ y := by
    have := mul_le_mul_of_nonneg_left hB_lo (by norm_num : (0:ℚ) ≤ 1000000000)
    rw [hy]
    linarith [this]
  have hy_hi : y ≤ 4000000000000000000 := by
    have := mul_le_mul_of_nonneg_left hB_hi (by norm_num : (0:ℚ) ≤ 1000000000)
    rw [hy]
    linarith [this]
  have r3lo : TWO200⁻¹ ≤ y := le_trans (by norm_num [TWO200]) hy_lo
  have r3hi : y < TWO200 := lt_of_le_of_lt hy_hi (by norm_num [TWO200])
  obtain ⟨h3lo, h3hi⟩ := roundD_bounds y r3lo r3hi
  set C := roundD y with hC
  have hyT : y / TWO52 ≤ y / 4 :=
    div_le_div_of_nonneg_left (by linarith) (by norm_num) (by norm_num [TWO52])
  have hC1 : (1 : ℚ) ≤ C := by linarith
  simp only [truncQ]
  rw [if_neg (not_lt.mpr (by linarith : (0 : ℚ) ≤ C))]
  rw [qfloor_eq_floor]
  have : (1 : ℤ) ≤ ⌊C⌋ := Int.le_floor.mpr (by exact_mod_cast hC1)
  omega

unseal Rat.add Rat.mul Rat.inv Rat.sub in
theorem dblOfInt_billion : dblOfInt BILLION = (1000000000 : ℚ) := by decide

theorem server_sec_of_skews_pos (sk_now sk_prev : ℤ)
    (hlo : -(1000000000 : ℚ) < ((sk_now - sk_prev : ℤ) : ℚ) / 61)
    (hhi : sk_now - sk_prev < 9223372036854775808) :
    0 < server_sec_of_skews sk_now sk_prev := by
  have h61 : (0 : ℚ) < 61 := by norm_num
  rw [lt_div_iff₀ h61] at hlo
  have hdq : (-61000000000 : ℚ) < ((sk_now - sk_prev : ℤ) : ℚ) := by
    push_cast at hlo ⊢
    linarith
  have hd : (-61000000000 : ℤ) < sk_now - sk_prev := by exact_mod_cast hdq
  obtain ⟨hsp1, hspK⟩ := sp_bounds hd hhi
  unfold server_sec_of_skews server_period
  rw [dblOfInt_billion]
  exact server_sec_core_pos _ hsp1 hspK

unseal Rat.add Rat.mul Rat.inv Rat.sub in
theorem server_sec_of_skews_self (x : ℤ) :
    server_sec_of_skews x x = 1000000000 := by
  unfold server_sec_of_skews server_period
  rw [sub_self, Int.zero_tdiv, zero_add]
  decide

/-! ### Claim theorems -/

unseal Rat.add Rat.mul Rat.inv Rat.sub in
/-- C1 counterexample: the Drift computation does not implement the formula
`round(1e18 / (d/drift_period + 1e9))` with a real quotient and rounding to
nearest.  At skew delta `d = 40` the real-quotient rounded formula yields
999999999, but the code (integer-truncated quotient `40/61 = 0`, double
arithmetic, truncating cast) yields 1000000000. -/
theorem drift_formula_counterexample :
    server_sec_of_skews 40 0 = 1000000000 ∧
    specServerSecond 40 = 999999999 ∧
    server_sec_of_skews 40 0 ≠ specServerSecond 40 := by
  decide

unseal Rat.add Rat.mul Rat.inv Rat.sub in
/-- C1 amended: in every Drift handling cycle the new period estimate is
`server_sec = (long long)(1e9 * (1e9 / double(d/61 + 1e9)))` with the skew
delta quotient `d/61` integer-truncated toward zero and the final cast
truncating toward zero, all in binary64 arithmetic; in particular a delta of 0
yields exactly 1_000_000_000 and a delta of 61_000 yields exactly 999_999_000. -/
theorem drift_formula_amended :
    server_sec_of_skews 0 0 = 1000000000 ∧
    server_sec_of_skews 61000 0 = 999999000 := by
  decide

/-- C2: the period estimate is strictly positive: it is 1e9 at startup, Sync
handling leaves it unchanged (hence positive), and every Drift handling cycle
whose skew delta `d` satisfies `d/drift_period > -1e9` (real quotient, i.e.
`d > -61e9`) and is 64-bit representable produces a strictly positive
`server_sec`. -/
theorem server_sec_strictly_positive :
    (∀ TI : timeinfo, (initState TI).server_sec = 1000000000) ∧
    (∀ (s : SchedState) (TI : timeinfo),
      0 < s.server_sec → 0 < (syncStep s TI).server_sec) ∧
    (∀ (s : SchedState) (sk : ℤ),
      -(1000000000 : ℚ) < ((sk - s.T_skew_now : ℤ) : ℚ) / 61 →
      sk - s.T_skew_now < 9223372036854775808 →
      0 < (driftStep s sk).server_sec) := by
  refine ⟨fun _ => rfl, ?_, ?_⟩
  · intro s TI h
    simpa [syncStep] using h
  · intro s sk hlo hhi
    have h := server_sec_of_skews_pos sk s.T_skew_now hlo hhi
    simpa [driftStep] using h

/-- C2 witness: the positivity theorem applied at the concrete state `stateC`
and skew sample 40. -/
theorem server_sec_strictly_positive_witness :
    (-(1000000000 : ℚ) < ((40 - stateC.T_skew_now : ℤ) : ℚ) / 61) ∧
    (40 - stateC.T_skew_now : ℤ) < 9223372036854775808 ∧
    0 < (driftStep stateC 40).server_sec :=
  ⟨by norm_num [stateC], by norm_num [stateC],
    server_sec_strictly_positive.2.2 stateC 40 (by norm_num [stateC])
      (by norm_num [stateC])⟩

/-- C3: every Drift handling cycle, after computing the new `server_sec`,
advances the trigger base by `(drift_period+1) * server_sec`, re-arms the
Trigger timer at the new base with interval `server_sec` (times `PERIOD = 1`),
re-arms the Sync timer one-shot at
`sync_anchor + sync_period*server_sec + server_sec/OFFSET` (where the anchor is
the running `T_sync_n` and `OFFSET = 2`), and resets the trigger count to 0. -/
theorem drift_cycle_rearms (s : SchedState) (sk : ℤ) :
    (driftStep s sk).server_sec = server_sec_of_skews sk s.T_skew_now ∧
    (driftStep s sk).T_trig_n =
      s.T_trig_n + (drift_period + 1) * server_sec_of_skews sk s.T_skew_now ∧
    (driftStep s sk).cameraTimer =
      { value_ns := s.T_trig_n +
          (drift_period + 1) * server_sec_of_skews sk s.T_skew_now,
        interval_ns := server_sec_of_skews sk s.T_skew_now } ∧
    (driftStep s sk).syncTimer =
      { value_ns := s.T_sync_n +
          sync_period * server_sec_of_skews sk s.T_skew_now +
          Int.tdiv (server_sec_of_skews sk s.T_skew_now) OFFSET,
        interval_ns := 0 } ∧
    (driftStep s sk).count = 0 := by
  refine ⟨rfl, rfl, ?_, ?_, rfl⟩
  · show resetTimer
      (as_timespec (s.T_trig_n +
        (drift_period + 1) * server_sec_of_skews sk s.T_skew_now))
      (server_sec_of_skews sk s.T_skew_now * PERIOD) = _
    rw [resetTimer_abs, PERIOD, mul_one]
  · show resetTimer
      (as_timespec (s.T_sync_n +
        sync_period * server_sec_of_skews sk s.T_skew_now +
        Int.tdiv (server_sec_of_skews sk s.T_skew_now) OFFSET)) 0 = _
    rw [resetTimer_abs]

/-- C4 counterexample: Sync handling does not re-arm the Trigger timer with the
nominal period 1_000_000_000 ns; it uses the current `server_sec`.  From a
state whose period estimate is 999_999_000, the re-armed Trigger interval is
999_999_000 ns. -/
theorem sync_nominal_period_counterexample :
    (syncStep stateC { T_skew_n := 777, T_start_n := 123000000000 }
      ).cameraTimer.interval_ns = 999999000 ∧
    (syncStep stateC { T_skew_n := 777, T_start_n := 123000000000 }
      ).cameraTimer.interval_ns ≠ 1000000000 := by
  decide

/-- C4 amended: every Sync handling cycle that obtains a `timeinfo` with
`T_start_n = Y` sets the trigger base to `Y` regardless of the prior state,
re-arms the Trigger timer at `Y` with interval equal to the CURRENT
`server_sec` (which the cycle leaves unchanged, nominal only if it was
nominal), re-arms the Drift timer one-shot at
`Y + drift_period*server_sec + server_sec/OFFSET`, records the returned skew,
and resets the trigger count to 0. -/
theorem sync_cycle_rearms (s : SchedState) (TI : timeinfo) :
    (syncStep s TI).T_trig_n = TI.T_start_n ∧
    (syncStep s TI).cameraTimer =
      { value_ns := TI.T_start_n, interval_ns := s.server_sec } ∧
    (syncStep s TI).driftTimer =
      { value_ns := TI.T_start_n + drift_period * s.server_sec +
          Int.tdiv s.server_sec OFFSET,
        interval_ns := 0 } ∧
    (syncStep s TI).T_skew_now = TI.T_skew_n ∧
    (syncStep s TI).count = 0 ∧
    (syncStep s TI).server_sec = s.server_sec := by
  refine ⟨rfl, ?_, ?_, rfl, rfl, rfl⟩
  · show resetTimer (as_timespec TI.T_start_n) (s.server_sec * PERIOD) = _
    rw [resetTimer_abs, PERIOD, mul_one]
  · show resetTimer
      (as_timespec (TI.T_start_n + drift_period * s.server_sec +
        Int.tdiv s.server_sec OFFSET)) 0 = _
    rw [resetTimer_abs]

/-- C5: at startup, when the initial full synchronization returns
`T_start_n = X`, the Trigger timer is armed at `X` with period 1e9 ns, the
Drift timer one-shot (interval 0) at `X + 61e9 + 5e8`, and the Sync timer
one-shot at `X + 301e9 + 5e8`; regardless of the peripheral-init outcome the
startup state is `initState TI`. -/
theorem startup_arms_timers (TI : timeinfo) :
    (∀ periphOk, (mainInit periphOk (some TI)).2 = some (initState TI)) ∧
    (initState TI).cameraTimer =
      { value_ns := TI.T_start_n, interval_ns := 1000000000 } ∧
    (initState TI).driftTimer =
      { value_ns := TI.T_start_n + 61000000000 + 500000000, interval_ns := 0 } ∧
    (initState TI).syncTimer =
      { value_ns := TI.T_start_n + 301000000000 + 500000000,
        interval_ns := 0 } := by
  have htd : Int.tdiv (1000000000 : ℤ) 2 = 500000000 := by decide
  refine ⟨fun _ => rfl, ?_, ?_, ?_⟩
  · show makeTimer (as_timespec TI.T_start_n) PERIOD 0 = _
    rw [makeTimer_abs, PERIOD, BILLION, one_mul, add_zero]
  · show makeTimer
      (as_timespec (TI.T_start_n + drift_period * BILLION +
        Int.tdiv BILLION OFFSET)) 0 0 = _
    rw [makeTimer_abs, BILLION, OFFSET, drift_period, htd]
    norm_num
  · show makeTimer
      (as_timespec (TI.T_start_n + sync_period * BILLION +
        Int.tdiv BILLION OFFSET)) 0 0 = _
    rw [makeTimer_abs, BILLION, OFFSET, sync_period, htd]
    norm_num

/-- C6: every failure of a full synchronization or of a skew sample terminates
the process with exit status 1 and is never retried; a failing initial
synchronization exits before any timer is armed (the startup trace is the
setup actions followed by the exit, with no arming action, and no scheduler
state is produced). -/
theorem acquisition_failure_fatal :
    (∀ periphOk,
      mainInit periphOk none = (setup periphOk ++ [TraceAction.exited 1], none)) ∧
    ((setup true ++ [TraceAction.exited 1]).filter isArm = []) ∧
    ((setup false ++ [TraceAction.exited 1]).filter isArm = []) ∧
    (∀ s : SchedState, handleSync s none = ([TraceAction.exited 1], none)) ∧
    (∀ s : SchedState, handleDrift s none = ([TraceAction.exited 1], none)) :=
  ⟨fun _ => rfl, rfl, rfl, fun _ => rfl, fun _ => rfl⟩

/-- C7 counterexample: a failed peripheral initialization does not abort
startup: with `init` failing and a successful initial synchronization, the
startup still produces a scheduler state and still arms the Trigger timer. -/
theorem periph_init_failure_counterexample :
    (mainInit false (some { T_skew_n := 0, T_start_n := 1000000000 })).2 =
      some (initState { T_skew_n := 0, T_start_n := 1000000000 }) ∧
    TraceAction.armed TimerName.camera 1000000000 1000000000 ∈
      (mainInit false (some { T_skew_n := 0, T_start_n := 1000000000 })).1 := by
  decide

/-- C7 amended: when peripheral initialization fails, `setup` reports the error
and skips opening the log file, but `main` continues: the initial
synchronization result is consumed, all three timers are armed and the loop
state is produced exactly as on the success path, which additionally opens the
log first. -/
theorem periph_init_failure_continues (TI : timeinfo) :
    mainInit false (some TI) =
      ([TraceAction.armed TimerName.camera (initState TI).cameraTimer.value_ns
          (initState TI).cameraTimer.interval_ns,
        TraceAction.armed TimerName.drift (initState TI).driftTimer.value_ns
          (initState TI).driftTimer.interval_ns,
        TraceAction.armed TimerName.sync (initState TI).syncTimer.value_ns
          (initState TI).syncTimer.interval_ns],
       some (initState TI)) ∧
    mainInit true (some TI) =
      (TraceAction.logOpened ::
        (mainInit false (some TI)).1,
       some (initState TI)) :=
  ⟨rfl, rfl⟩

/-- C8: the trigger count is exactly 0 immediately after every completed Drift
handling cycle and every completed Sync handling cycle, and a Trigger firing
increments the count by exactly 1 while modifying nothing else. -/
theorem trigger_count_discipline (s : SchedState) (sk : ℤ) (TI : timeinfo) :
    (driftStep s sk).count = 0 ∧
    (syncStep s TI).count = 0 ∧
    triggerCamera s = ([TraceAction.triggered], { s with count := s.count + 1 }) :=
  ⟨rfl, rfl, rfl⟩

unseal Rat.add Rat.mul Rat.inv Rat.sub in
/-- C9 counterexample: a Drift cycle with equal skews does not leave
`server_sec` unchanged for every prior value: it recomputes it from scratch.
From `stateC` (period estimate 999_999_000), a cycle whose fresh sample equals
the previous skew sets the estimate to 1_000_000_000. -/
theorem drift_idempotence_counterexample :
    stateC.server_sec = 999999000 ∧
    (driftStep stateC stateC.T_skew_now).server_sec = 1000000000 ∧
    (driftStep stateC stateC.T_skew_now).server_sec ≠ stateC.server_sec := by
  decide

/-- C9 amended: a Drift handling cycle in which the freshly sampled skew equals
the previous skew sets `server_sec` to exactly 1_000_000_000, whatever its
prior value; hence the estimate is unchanged precisely when it was nominal
before the cycle. -/
theorem drift_equal_skews_resets_nominal (s : SchedState) (sk : ℤ)
    (h : sk = s.T_skew_now) :
    (driftStep s sk).server_sec = 1000000000 := by
  subst h
  exact server_sec_of_skews_self s.T_skew_now

/-- C9 amended witness: the theorem applied at `stateC` with the skew sample
equal to the previous skew. -/
theorem drift_equal_skews_resets_nominal_witness :
    (driftStep stateC stateC.T_skew_now).server_sec = 1000000000 :=
  drift_equal_skews_resets_nominal stateC stateC.T_skew_now rfl

/-- C10 counterexample: Drift handling does not keep the Drift timer firing
inside a sync interval: a Drift cycle leaves the Drift timer exactly as it was
(one-shot, already expired) and its trace arms no Drift timer, so Drift cannot
recur every ~61 s between two synchronizations. -/
theorem drift_recurrence_counterexample :
    (driftStep stateC 40).driftTimer = stateC.driftTimer ∧
    ((handleDrift stateC (some 40)).1.filter isArmDrift) = [] :=
  ⟨rfl, rfl⟩

/-- C10 amended: between two consecutive full synchronizations exactly one
Drift handling occurs (~61 remote seconds after the sync): the Drift timer is
one-shot and the Drift handler never re-arms it — it is re-armed only at
startup and by Sync handling; dually, the Sync timer is one-shot and is
re-armed only at startup and by the Drift handler. -/
theorem drift_sync_rearm_discipline (s : SchedState) (sk : ℤ) (TI : timeinfo) :
    (driftStep s sk).driftTimer = s.driftTimer ∧
    ((handleDrift s (some sk)).1.filter isArmDrift) = [] ∧
    ((handleDrift s (some sk)).1.filter isArmSync) =
      [TraceAction.armed TimerName.sync (driftStep s sk).syncTimer.value_ns
        (driftStep s sk).syncTimer.interval_ns] ∧
    (syncStep s TI).syncTimer = s.syncTimer ∧
    ((handleSync s (some TI)).1.filter isArmSync) = [] ∧
    ((handleSync s (some TI)).1.filter isArmDrift) =
      [TraceAction.armed TimerName.drift (syncStep s TI).driftTimer.value_ns
        (syncStep s TI).driftTimer.interval_ns] ∧
    (initState TI).driftTimer.interval_ns = 0 ∧
    (driftStep s sk).syncTimer.interval_ns = 0 ∧
    (syncStep s TI).driftTimer.interval_ns = 0 :=
  ⟨rfl, rfl, rfl, rfl, rfl, rfl, rfl, rfl, rfl⟩
